import Mathlib

/-!
Verification of the natural-language specification of `src/seo_analysis.py`
(a Google-Trends SEO analysis script) against a shallow embedding of its code.

The embedding models:
* `async_retry` — the retry wrapper — as a recursive function producing the
  trace of observable events (operation invocations, stdout prints, backoff
  sleeps) together with the final outcome.  Randomness (`random.uniform(0, 2)`)
  is modelled by an oracle stream `jitter : Nat → ℚ` giving the value drawn
  before the n-th backoff sleep; the asynchronous sleep itself is a trace
  event.  A Python exception is an `Except.error`; falling off the end of the
  `for` loop (possible only when `retries = 0`) yields the Python value
  `None`, modelled by `RetryResult.none`.
* pandas DataFrames as a record of an index (with its name) and named columns.
* the pytrends collaborator as an oracle `Provider` mapping the global
  invocation number and the payload built by `build_payload` to a response;
  the payload-building and retrieval steps performed inside each façade's
  closure are recorded as inner trace events.
* the plotly calls as constructions of figure-description records; since
  `reset_index(inplace=True)` mutates the frame passed in, each plot function
  returns the post-call state of its `data` argument alongside the figure.
* `main` as the concatenation of the event lists of its two try/except phases.
-/

/-- A scalar value held in a pandas index or column. -/
inductive Cell where
  | str (s : String)
  | num (n : Nat)
  | rat (q : ℚ)
  | bool (b : Bool)
deriving DecidableEq, Repr

/-- A pandas DataFrame: a named index and a list of named columns. -/
structure DataFrame where
  indexName : String
  index : List Cell
  cols : List (String × List Cell)
deriving DecidableEq, Repr

/-- `df.reset_index(inplace=True)`: the old index becomes the first column
(named after the index), and the index is replaced by a fresh `RangeIndex`. -/
def DataFrame.reset_index (df : DataFrame) : DataFrame :=
  { indexName := "",
    index := (List.range df.index.length).map Cell.num,
    cols := (df.indexName, df.index) :: df.cols }

/-- `df.empty`: true iff some axis has length zero. -/
def DataFrame.empty (df : DataFrame) : Bool :=
  df.index.length == 0 || df.cols.length == 0

/-- Observable events of one `async_retry` run.  `ev` is the type of events
emitted inside the wrapped operation, `ε` the type of raised errors. -/
inductive Event (ev ε : Type) where
  | invoke (attempt : Nat)
  | op (attempt : Nat) (e : ev)
  | printRetrying (sleepTime : ℚ) (attemptShown : Nat)
  | sleep (duration : ℚ)
  | printMaxRetries (lastError : ε)
deriving DecidableEq, Repr

/-- Outcome of `async_retry`: a returned value, a raised error, or the
Python `None` obtained by falling off the end of the loop. -/
inductive RetryResult (ε α : Type) where
  | ok (a : α)
  | err (e : ε)
  | none
deriving DecidableEq, Repr

/-- The retry loop of `async_retry`, by recursion on the number of loop
iterations remaining.  `func n` gives the inner events and the outcome of
the n-th invocation of the wrapped operation; `jitter n` is the value drawn
by `random.uniform(0, 2)` after a failed attempt `n`. -/
def retryGo (func : Nat → List ev × Except ε α) (jitter : Nat → ℚ) (delay : ℚ) :
    Nat → Nat → List (Event ev ε) × RetryResult ε α
  | 0, _ => ([], RetryResult.none)
  | remaining + 1, attempt =>
    let inner := (func attempt).1.map (Event.op attempt)
    match (func attempt).2 with
    | Except.ok a => (Event.invoke attempt :: inner, RetryResult.ok a)
    | Except.error e =>
      if remaining = 0 then
        (Event.invoke attempt :: inner ++ [Event.printMaxRetries e], RetryResult.err e)
      else
        let s := delay + jitter attempt
        let rest := retryGo func jitter delay remaining (attempt + 1)
        (Event.invoke attempt :: inner ++
          Event.printRetrying s (attempt + 1) :: Event.sleep s :: rest.1, rest.2)

/-- `async_retry(func, retries, delay)` (defaults in the source:
`retries=3`, `delay=5`). -/
def async_retry (func : Nat → List ev × Except ε α) (jitter : Nat → ℚ)
    (retries : Nat) (delay : ℚ) : List (Event ev ε) × RetryResult ε α :=
  retryGo func jitter delay retries 0

/-- Number of invocations of the wrapped operation recorded in a trace. -/
def invCount (tr : List (Event ev ε)) : Nat :=
  tr.countP fun e =>
    match e with
    | Event.invoke _ => true
    | _ => false

/-- The durations of the backoff sleeps recorded in a trace, in order. -/
def sleepDurations (tr : List (Event ev ε)) : List ℚ :=
  tr.filterMap fun e =>
    match e with
    | Event.sleep d => some d
    | _ => none

/-- The inner events emitted during invocation `i` of the wrapped operation. -/
def innerEvents (tr : List (Event ev ε)) (i : Nat) : List ev :=
  tr.filterMap fun e =>
    match e with
    | Event.op j x => if j = i then some x else none
    | _ => none

/-- The request payload built by `pytrends.build_payload`.  `timeframe = none`
means the façade did not pass a timeframe and the collaborator's own default
applies (the collaborator is opaque). -/
structure Payload where
  keywords : List String
  timeframe : Option String
  geo : String
deriving DecidableEq, Repr

/-- Steps a façade's closure performs against the pytrends collaborator. -/
inductive FEvent where
  | buildPayload (p : Payload)
  | interestOverTime
  | interestByRegion (resolution : String)
  | relatedQueries
deriving DecidableEq, Repr

/-- The external trends provider, as a response oracle: each retrieval is a
function of the global invocation number (which threads the collaborator's
hidden state across calls) and of the payload most recently built. -/
structure Provider where
  iot : Nat → Payload → Except String DataFrame
  ibr : Nat → Payload → String → Except String DataFrame
  rq : Nat → Payload → Except String (List (String × DataFrame × DataFrame))

/-- `get_interest_over_time(keywords, timeframe, geo)`: the closure rebuilds
the payload and retrieves the time-series table; it is passed to
`async_retry` with the source defaults `retries=3`, `delay=5`.  `start` is
the number of provider invocations made before this call. -/
def get_interest_over_time (P : Provider) (start : Nat) (jitter : Nat → ℚ)
    (keywords : List String) (timeframe : String) (geo : String) :
    List (Event FEvent String) × RetryResult String DataFrame :=
  let p : Payload := ⟨keywords, some timeframe, geo⟩
  async_retry
    (fun n => ([FEvent.buildPayload p, FEvent.interestOverTime], P.iot (start + n) p))
    jitter 3 5

/-- `get_interest_by_region(keyword, resolution, geo)` (source default
`resolution='COUNTRY'`): builds a payload for the single keyword (no
timeframe passed) and retrieves the regional table. -/
def get_interest_by_region (P : Provider) (start : Nat) (jitter : Nat → ℚ)
    (keyword : String) (resolution : String) (geo : String) :
    List (Event FEvent String) × RetryResult String DataFrame :=
  let p : Payload := ⟨[keyword], none, geo⟩
  async_retry
    (fun n => ([FEvent.buildPayload p, FEvent.interestByRegion resolution],
      P.ibr (start + n) p resolution))
    jitter 3 5

/-- `get_related_queries(keyword, geo)`. -/
def get_related_queries (P : Provider) (start : Nat) (jitter : Nat → ℚ)
    (keyword : String) (geo : String) :
    List (Event FEvent String) × RetryResult String (List (String × DataFrame × DataFrame)) :=
  let p : Payload := ⟨[keyword], none, geo⟩
  async_retry
    (fun n => ([FEvent.buildPayload p, FEvent.relatedQueries], P.rq (start + n) p))
    jitter 3 5

/-- The line figure built by `px.line` plus the `update_layout` call. -/
structure LineFig where
  x : String
  ys : List String
  title : String
  xaxisTitle : String
  yaxisTitle : String
deriving DecidableEq, Repr

/-- The choropleth figure built by `px.choropleth` plus `update_layout`. -/
structure ChoroFig where
  locations : List Cell
  locationmode : String
  color : String
  title : String
  colorScale : String
  showframe : Bool
  showcoastlines : Bool
deriving DecidableEq, Repr

/-- `plot_interest_over_time(data, title)`.  `data.reset_index(inplace=True)`
mutates the argument, so the function returns the post-call state of `data`
together with the figure (`x='date'`, `y=data.columns[:-1]`). -/
def plot_interest_over_time (data : DataFrame) (title : String) :
    DataFrame × LineFig :=
  let d := data.reset_index
  (d, { x := "date", ys := (d.cols.map Prod.fst).dropLast, title := title,
        xaxisTitle := "Date", yaxisTitle := "Search Interest" })

/-- `plot_interest_by_region(data, keyword, title)`.  After the in-place
`reset_index`, `locations=data.index` is the fresh range index;
`locationmode="country names"` and `color=keyword` are passed literally. -/
def plot_interest_by_region (data : DataFrame) (keyword : String) (title : String) :
    DataFrame × ChoroFig :=
  let d := data.reset_index
  (d, { locations := d.index, locationmode := "country names", color := keyword,
        title := title, colorScale := "Viridis",
        showframe := false, showcoastlines := false })

/-- Events observable from `main`: stdout prints and figure renderings. -/
inductive MainEvent where
  | print (msg : String)
  | plotIOT (fig : LineFig)
  | plotIBR (fig : ChoroFig)
deriving DecidableEq, Repr

def mainKeywords : List String :=
  ["Black Friday Deals", "Cyber Monday Deals", "Holiday Sales"]

def mainGeo : String := "US"

def mainTimeframe : String := "today 12-m"

/-- The fetch performed by the first phase of `main`. -/
def phase1Fetch (P : Provider) (jitter : Nat → ℚ) :
    List (Event FEvent String) × RetryResult String DataFrame :=
  get_interest_over_time P 0 jitter mainKeywords mainTimeframe mainGeo

/-- The events of `main`'s first try/except phase.  A raised error is caught
and logged; an empty frame skips plotting.  The `RetryResult.none` arm is
unreachable (`retries = 3`): in Python, `None.empty` would raise an
`AttributeError`, caught by the same handler. -/
def phase1Events (P : Provider) (jitter : Nat → ℚ) : List MainEvent :=
  match (phase1Fetch P jitter).2 with
  | RetryResult.ok df =>
    if df.empty then [MainEvent.print "No data retrieved for interest over time."]
    else [MainEvent.plotIOT (plot_interest_over_time df "Emerging Trends in the US").2]
  | RetryResult.err e =>
    [MainEvent.print ("Failed to fetch interest over time: " ++ e)]
  | RetryResult.none =>
    [MainEvent.print "Failed to fetch interest over time: NoneType has no attribute empty"]

/-- The fetch performed by the second phase of `main`: provider invocation
numbers and jitter draws continue from where the first phase left off. -/
def phase2Fetch (P : Provider) (jitter : Nat → ℚ) :
    List (Event FEvent String) × RetryResult String DataFrame :=
  get_interest_by_region P (invCount (phase1Fetch P jitter).1)
    (fun i => jitter ((sleepDurations (phase1Fetch P jitter).1).length + i))
    "Holiday Sales" "COUNTRY" mainGeo

/-- The events of `main`'s second try/except phase. -/
def phase2Events (P : Provider) (jitter : Nat → ℚ) : List MainEvent :=
  match (phase2Fetch P jitter).2 with
  | RetryResult.ok df =>
    if df.empty then [MainEvent.print "No data retrieved for regional interest."]
    else [MainEvent.plotIBR
      (plot_interest_by_region df "Holiday Sales" "Regional Interest in the US").2]
  | RetryResult.err e =>
    [MainEvent.print ("Failed to fetch regional interest: " ++ e)]
  | RetryResult.none =>
    [MainEvent.print "Failed to fetch regional interest: NoneType has no attribute empty"]

/-- `main()`: runs the two phases in order; each phase's handler confines its
errors, so the run is a plain concatenation of the two phases' events. -/
def seoMain (P : Provider) (jitter : Nat → ℚ) : List MainEvent :=
  phase1Events P jitter ++ phase2Events P jitter

variable {ev ε α : Type}

theorem invCount_append (l1 l2 : List (Event ev ε)) :
    invCount (l1 ++ l2) = invCount l1 + invCount l2 :=
  List.countP_append _ _ _

theorem invCount_op_map (a : Nat) (l : List ev) :
    invCount (l.map (Event.op a) : List (Event ev ε)) = 0 := by
  simp [invCount, List.countP_map, Function.comp]

theorem sleepDurations_append (l1 l2 : List (Event ev ε)) :
    sleepDurations (l1 ++ l2) = sleepDurations l1 ++ sleepDurations l2 :=
  List.filterMap_append _ _ _

theorem sleepDurations_op_map (a : Nat) (l : List ev) :
    sleepDurations (l.map (Event.op a) : List (Event ev ε)) = [] := by
  simp [sleepDurations, List.filterMap_map, Function.comp]

theorem retryGo_zero (func : Nat → List ev × Except ε α) (jitter : Nat → ℚ)
    (delay : ℚ) (attempt : Nat) :
    retryGo func jitter delay 0 attempt = ([], RetryResult.none) := rfl

theorem retryGo_ok (func : Nat → List ev × Except ε α) (jitter : Nat → ℚ)
    (delay : ℚ) (m attempt : Nat) (a : α) (h : (func attempt).2 = Except.ok a) :
    retryGo func jitter delay (m + 1) attempt =
      (Event.invoke attempt :: (func attempt).1.map (Event.op attempt),
       RetryResult.ok a) := by
  simp only [retryGo, h]

theorem retryGo_err_last (func : Nat → List ev × Except ε α) (jitter : Nat → ℚ)
    (delay : ℚ) (attempt : Nat) (e : ε) (h : (func attempt).2 = Except.error e) :
    retryGo func jitter delay 1 attempt =
      (Event.invoke attempt :: (func attempt).1.map (Event.op attempt) ++
        [Event.printMaxRetries e],
       RetryResult.err e) := by
  simp only [retryGo, h, if_true]

theorem retryGo_err_retry (func : Nat → List ev × Except ε α) (jitter : Nat → ℚ)
    (delay : ℚ) (m attempt : Nat) (e : ε) (hm : m ≠ 0)
    (h : (func attempt).2 = Except.error e) :
    retryGo func jitter delay (m + 1) attempt =
      (Event.invoke attempt :: (func attempt).1.map (Event.op attempt) ++
        Event.printRetrying (delay + jitter attempt) (attempt + 1) ::
        Event.sleep (delay + jitter attempt) ::
        (retryGo func jitter delay m (attempt + 1)).1,
       (retryGo func jitter delay m (attempt + 1)).2) := by
  simp only [retryGo, h, if_neg hm]

theorem invCount_nil : invCount ([] : List (Event ev ε)) = 0 := rfl

theorem invCount_cons_invoke (a : Nat) (tr : List (Event ev ε)) :
    invCount (Event.invoke a :: tr) = invCount tr + 1 := by
  simp [invCount, List.countP_cons]

theorem invCount_cons_printRetrying (s : ℚ) (a : Nat) (tr : List (Event ev ε)) :
    invCount (Event.printRetrying s a :: tr) = invCount tr := by
  simp [invCount, List.countP_cons]

theorem invCount_cons_sleep (s : ℚ) (tr : List (Event ev ε)) :
    invCount (Event.sleep s :: tr) = invCount tr := by
  simp [invCount, List.countP_cons]

theorem invCount_cons_printMaxRetries (e : ε) (tr : List (Event ev ε)) :
    invCount ((Event.printMaxRetries e : Event ev ε) :: tr) = invCount tr := by
  simp [invCount, List.countP_cons]

theorem retryGo_always_fails (func : Nat → List ev × Except ε α) (jitter : Nat → ℚ)
    (delay : ℚ) (errF : Nat → ε)
    (hfail : ∀ n, (func n).2 = Except.error (errF n)) :
    ∀ m attempt,
      invCount (retryGo func jitter delay (m + 1) attempt).1 = m + 1 ∧
      (retryGo func jitter delay (m + 1) attempt).2 = RetryResult.err (errF (attempt + m)) ∧
      Event.printMaxRetries (errF (attempt + m)) ∈ (retryGo func jitter delay (m + 1) attempt).1 := by
  intro m
  induction m with
  | zero =>
    intro attempt
    rw [retryGo_err_last func jitter delay attempt _ (hfail attempt)]
    refine ⟨?_, rfl, ?_⟩
    · dsimp only
      simp only [invCount_append, invCount_cons_invoke, invCount_op_map,
        invCount_cons_printMaxRetries, invCount_nil]
    · simp
  | succ m ih =>
    intro attempt
    rw [retryGo_err_retry func jitter delay (m + 1) attempt _ (Nat.succ_ne_zero m) (hfail attempt)]
    obtain ⟨ihc, ihr, ihm⟩ := ih (attempt + 1)
    rw [show attempt + (m + 1) = attempt + 1 + m by omega]
    refine ⟨?_, ihr, ?_⟩
    · dsimp only
      simp only [invCount_append, invCount_cons_invoke, invCount_op_map,
        invCount_cons_printRetrying, invCount_cons_sleep, ihc]
      omega
    · simp [List.mem_cons, List.mem_append, ihm]

theorem sleepDurations_nil : sleepDurations ([] : List (Event ev ε)) = [] := rfl

theorem sleepDurations_cons_invoke (a : Nat) (tr : List (Event ev ε)) :
    sleepDurations (Event.invoke a :: tr) = sleepDurations tr := by
  simp [sleepDurations, List.filterMap_cons]

theorem sleepDurations_cons_printRetrying (s : ℚ) (a : Nat) (tr : List (Event ev ε)) :
    sleepDurations (Event.printRetrying s a :: tr) = sleepDurations tr := by
  simp [sleepDurations, List.filterMap_cons]

theorem sleepDurations_cons_sleep (d : ℚ) (tr : List (Event ev ε)) :
    sleepDurations (Event.sleep d :: tr) = d :: sleepDurations tr := by
  simp [sleepDurations, List.filterMap_cons]

theorem sleepDurations_cons_printMaxRetries (e : ε) (tr : List (Event ev ε)) :
    sleepDurations ((Event.printMaxRetries e : Event ev ε) :: tr) = sleepDurations tr := by
  simp [sleepDurations, List.filterMap_cons]

theorem retryGo_succeeds (func : Nat → List ev × Except ε α) (jitter : Nat → ℚ)
    (delay : ℚ) (errF : Nat → ε) (v : α) :
    ∀ m rem attempt, m < rem →
      (∀ i, i < m → (func (attempt + i)).2 = Except.error (errF (attempt + i))) →
      (func (attempt + m)).2 = Except.ok v →
      invCount (retryGo func jitter delay rem attempt).1 = m + 1 ∧
      sleepDurations (retryGo func jitter delay rem attempt).1 =
        (List.range m).map (fun i => delay + jitter (attempt + i)) ∧
      (retryGo func jitter delay rem attempt).2 = RetryResult.ok v ∧
      ∃ pre, (retryGo func jitter delay rem attempt).1 =
        pre ++ Event.invoke (attempt + m) ::
          ((func (attempt + m)).1.map (Event.op (attempt + m))) := by
  intro m
  induction m with
  | zero =>
    intro rem attempt hrem _hfail hsucc
    obtain ⟨r, rfl⟩ : ∃ r, rem = r + 1 := ⟨rem - 1, by omega⟩
    rw [retryGo_ok func jitter delay r attempt v hsucc]
    refine ⟨?_, ?_, rfl, ⟨[], ?_⟩⟩
    · dsimp only
      simp [invCount_cons_invoke, invCount_op_map]
    · dsimp only
      simp [sleepDurations_cons_invoke, sleepDurations_op_map]
    · simp
  | succ m ih =>
    intro rem attempt hrem hfail hsucc
    obtain ⟨r, rfl⟩ : ∃ r, rem = r + 1 := ⟨rem - 1, by omega⟩
    have hfail0 : (func attempt).2 = Except.error (errF attempt) := hfail 0 (by omega)
    rw [retryGo_err_retry func jitter delay r attempt (errF attempt) (by omega) hfail0]
    obtain ⟨ihc, ihs, ihr, pre', ihp⟩ := ih r (attempt + 1) (by omega)
      (fun i hi => by
        rw [show attempt + 1 + i = attempt + (i + 1) by omega]
        exact hfail (i + 1) (by omega))
      (by rw [show attempt + 1 + m = attempt + (m + 1) by omega]; exact hsucc)
    rw [show attempt + (m + 1) = attempt + 1 + m by omega]
    refine ⟨?_, ?_, ihr, ?_⟩
    · dsimp only
      simp only [invCount_append, invCount_cons_invoke, invCount_op_map,
        invCount_cons_printRetrying, invCount_cons_sleep, ihc]
      omega
    · dsimp only
      rw [sleepDurations_append, sleepDurations_cons_invoke, sleepDurations_op_map,
        sleepDurations_cons_printRetrying, sleepDurations_cons_sleep,
        ihs, List.range_succ_eq_map, List.map_cons, List.map_map]
      simp only [List.nil_append, Nat.add_zero]
      have hfun : (fun i => delay + jitter (attempt + 1 + i)) =
          ((fun i => delay + jitter (attempt + i)) ∘ Nat.succ) := by
        funext i
        simp only [Function.comp_apply]
        have hidx : attempt + 1 + i = attempt + Nat.succ i := by omega
        rw [hidx]
      rw [hfun]
    · refine ⟨Event.invoke attempt :: (func attempt).1.map (Event.op attempt) ++
        Event.printRetrying (delay + jitter attempt) (attempt + 1) ::
        Event.sleep (delay + jitter attempt) :: pre', ?_⟩
      dsimp only
      rw [ihp]
      simp [List.append_assoc]

theorem retryGo_sleeps_shape (func : Nat → List ev × Except ε α) (jitter : Nat → ℚ)
    (delay : ℚ) :
    ∀ rem attempt, ∃ s, sleepDurations (retryGo func jitter delay rem attempt).1 =
      (List.range s).map (fun i => delay + jitter (attempt + i)) := by
  intro rem
  induction rem with
  | zero => intro attempt; exact ⟨0, rfl⟩
  | succ r ih =>
    intro attempt
    cases h : (func attempt).2 with
    | ok a =>
      rw [retryGo_ok func jitter delay r attempt a h]
      refine ⟨0, ?_⟩
      dsimp only
      simp [sleepDurations_cons_invoke, sleepDurations_op_map]
    | error e =>
      by_cases hr : r = 0
      · subst hr
        rw [retryGo_err_last func jitter delay attempt e h]
        refine ⟨0, ?_⟩
        dsimp only
        simp [sleepDurations_append, sleepDurations_cons_invoke, sleepDurations_op_map,
          sleepDurations_cons_printMaxRetries, sleepDurations_nil]
      · rw [retryGo_err_retry func jitter delay r attempt e hr h]
        obtain ⟨s, ihs⟩ := ih (attempt + 1)
        refine ⟨s + 1, ?_⟩
        dsimp only
        rw [sleepDurations_append, sleepDurations_cons_invoke, sleepDurations_op_map,
          sleepDurations_cons_printRetrying, sleepDurations_cons_sleep, ihs,
          List.range_succ_eq_map, List.map_cons, List.map_map]
        simp only [List.nil_append, Nat.add_zero]
        have hfun : (fun i => delay + jitter (attempt + 1 + i)) =
            ((fun i => delay + jitter (attempt + i)) ∘ Nat.succ) := by
          funext i
          simp only [Function.comp_apply]
          have hidx : attempt + 1 + i = attempt + Nat.succ i := by omega
          rw [hidx]
        rw [hfun]

theorem retryGo_result_jitter_irrel (func : Nat → List ev × Except ε α)
    (j1 j2 : Nat → ℚ) (delay : ℚ) :
    ∀ rem attempt,
      (retryGo func j1 delay rem attempt).2 = (retryGo func j2 delay rem attempt).2 := by
  intro rem
  induction rem with
  | zero => intro attempt; rfl
  | succ r ih =>
    intro attempt
    cases h : (func attempt).2 with
    | ok a =>
      rw [retryGo_ok func j1 delay r attempt a h, retryGo_ok func j2 delay r attempt a h]
    | error e =>
      by_cases hr : r = 0
      · subst hr
        rw [retryGo_err_last func j1 delay attempt e h,
          retryGo_err_last func j2 delay attempt e h]
      · rw [retryGo_err_retry func j1 delay r attempt e hr h,
          retryGo_err_retry func j2 delay r attempt e hr h]
        exact ih (attempt + 1)

/-- C1: for every `R ≥ 1`, if the wrapped operation raises on every invocation,
`async_retry` invokes it exactly `R` times, the error raised to the caller after
the final attempt is the last underlying error, and the "Max retries reached"
message is printed with that error as context. -/
theorem c1_retry_exhaustion (func : Nat → List ev × Except ε α) (jitter : Nat → ℚ)
    (delay : ℚ) (R : Nat) (errF : Nat → ε) (hR : 1 ≤ R)
    (hfail : ∀ n, (func n).2 = Except.error (errF n)) :
    invCount (async_retry func jitter R delay).1 = R ∧
    (async_retry func jitter R delay).2 = RetryResult.err (errF (R - 1)) ∧
    Event.printMaxRetries (errF (R - 1)) ∈ (async_retry func jitter R delay).1 := by
  obtain ⟨m, rfl⟩ : ∃ m, R = m + 1 := ⟨R - 1, by omega⟩
  have h := retryGo_always_fails func jitter delay errF hfail m 0
  simpa [async_retry, Nat.zero_add, Nat.add_sub_cancel] using h

/-- An operation (with no inner events) that raises on every invocation. -/
def alwaysFailOp : Nat → List Unit × Except String Unit :=
  fun _ => ([], Except.error "boom")

/-- Witness for C1 at `R = 3`, `D = 5`. -/
theorem c1_retry_exhaustion_witness :
    1 ≤ 3 ∧
    (invCount (async_retry alwaysFailOp (fun _ => 1) 3 5).1 = 3 ∧
     (async_retry alwaysFailOp (fun _ => 1) 3 5).2 = RetryResult.err "boom" ∧
     Event.printMaxRetries "boom" ∈ (async_retry alwaysFailOp (fun _ => 1) 3 5).1) :=
  ⟨by decide,
   c1_retry_exhaustion alwaysFailOp (fun _ => 1) 5 3 (fun _ => "boom") (by decide)
     (fun _ => rfl)⟩

/-- C2: for every `R ≥ 1`, an operation that first succeeds on its `k`-th
invocation (`k ≤ R`) is invoked exactly `k` times, the success value is
returned, the backoff sleeps are exactly the `k - 1` sleeps taken before the
successful attempt, and the trace ends with the successful invocation (no
sleep after it). -/
theorem c2_success_attempts (func : Nat → List ev × Except ε α) (jitter : Nat → ℚ)
    (delay : ℚ) (R k : Nat) (errF : Nat → ε) (v : α)
    (hk : 1 ≤ k) (hkR : k ≤ R)
    (hfail : ∀ i, i < k - 1 → (func i).2 = Except.error (errF i))
    (hsucc : (func (k - 1)).2 = Except.ok v) :
    invCount (async_retry func jitter R delay).1 = k ∧
    sleepDurations (async_retry func jitter R delay).1 =
      (List.range (k - 1)).map (fun i => delay + jitter i) ∧
    (async_retry func jitter R delay).2 = RetryResult.ok v ∧
    ∃ pre, (async_retry func jitter R delay).1 =
      pre ++ Event.invoke (k - 1) :: ((func (k - 1)).1.map (Event.op (k - 1))) := by
  have h := retryGo_succeeds func jitter delay errF v (k - 1) R 0 (by omega)
    (fun i hi => by simpa using hfail i (by omega)) (by simpa using hsucc)
  simpa [async_retry, Nat.zero_add, Nat.sub_add_cancel hk] using h

/-- An operation that raises on its first invocation and succeeds afterwards. -/
def failOnceOp : Nat → List Unit × Except String String :=
  fun n => ([], if n = 0 then Except.error "transient" else Except.ok "payload")

/-- Witness for C2: fails once then succeeds, `R = 3` — exactly 2 attempts,
exactly one backoff sleep, result is the success-path payload. -/
theorem c2_success_attempts_witness :
    (1 ≤ 2 ∧ 2 ≤ 3) ∧
    invCount (async_retry failOnceOp (fun _ => 1) 3 5).1 = 2 ∧
    (async_retry failOnceOp (fun _ => 1) 3 5).2 = RetryResult.ok "payload" ∧
    sleepDurations (async_retry failOnceOp (fun _ => 1) 3 5).1 = [6] := by
  have h := c2_success_attempts failOnceOp (fun _ => 1) 5 3 2 (fun _ => "transient")
    "payload" (by decide) (by decide)
    (fun i hi => by
      have hz : i = 0 := by omega
      subst hz
      rfl)
    rfl
  refine ⟨⟨by decide, by decide⟩, h.1, h.2.2.1, ?_⟩
  rw [h.2.1]
  norm_num [List.range_succ]

/-- C3: every backoff sleep requested between attempts equals `delay` plus the
jitter value drawn for that retry — the i-th sleep uses the independently
drawn `jitter i` — so with jitter in `[0, 2)` every sleep lies in
`[delay, delay + 2)`. -/
theorem c3_sleep_bounds (func : Nat → List ev × Except ε α) (jitter : Nat → ℚ)
    (delay : ℚ) (R : Nat)
    (hj : ∀ i, 0 ≤ jitter i ∧ jitter i < 2) :
    (∃ s, sleepDurations (async_retry func jitter R delay).1 =
      (List.range s).map (fun i => delay + jitter i)) ∧
    ∀ d ∈ sleepDurations (async_retry func jitter R delay).1,
      delay ≤ d ∧ d < delay + 2 := by
  obtain ⟨s, hs⟩ := retryGo_sleeps_shape func jitter delay R 0
  have hs' : sleepDurations (async_retry func jitter R delay).1 =
      (List.range s).map (fun i => delay + jitter i) := by
    simpa [async_retry, Nat.zero_add] using hs
  refine ⟨⟨s, hs'⟩, ?_⟩
  intro d hd
  rw [hs'] at hd
  obtain ⟨i, _, rfl⟩ := List.mem_map.mp hd
  constructor
  · have := (hj i).1
    linarith
  · have := (hj i).2
    linarith

/-- Witness for C3 with the constant jitter oracle `1` and `D = 5`, `R = 3`. -/
theorem c3_sleep_bounds_witness :
    (∀ _i : Nat, (0 : ℚ) ≤ 1 ∧ (1 : ℚ) < 2) ∧
    ((∃ s, sleepDurations (async_retry alwaysFailOp (fun _ => 1) 3 5).1 =
      (List.range s).map (fun _ => 5 + 1)) ∧
     ∀ d ∈ sleepDurations (async_retry alwaysFailOp (fun _ => 1) 3 5).1,
       (5 : ℚ) ≤ d ∧ d < 5 + 2) :=
  ⟨fun _ => by norm_num,
   c3_sleep_bounds alwaysFailOp (fun _ => 1) 5 3 (fun _ => by norm_num)⟩

/-- C9: with `retries = 0` the loop body never executes: the wrapped operation
is never invoked and `async_retry` returns Python `None` (no error raised). -/
theorem c9_zero_retries_noop (func : Nat → List ev × Except ε α) (jitter : Nat → ℚ)
    (delay : ℚ) :
    async_retry func jitter 0 delay = ([], RetryResult.none) ∧
    invCount (async_retry func jitter 0 delay).1 = 0 :=
  ⟨rfl, rfl⟩

/-- C7: against a deterministic provider the façade adds no nondeterminism of
its own on the success path: two `get_interest_over_time` calls with identical
inputs — at any collaborator-state offsets and with any jitter draws — return
equal results. -/
theorem c7_facade_deterministic (P : Provider)
    (hdet : ∀ n m p, P.iot n p = P.iot m p)
    (s1 s2 : Nat) (j1 j2 : Nat → ℚ) (keywords : List String)
    (timeframe geo : String) :
    (get_interest_over_time P s1 j1 keywords timeframe geo).2 =
    (get_interest_over_time P s2 j2 keywords timeframe geo).2 := by
  unfold get_interest_over_time async_retry
  dsimp only
  have hfunc :
      (fun n => ([FEvent.buildPayload ⟨keywords, some timeframe, geo⟩,
          FEvent.interestOverTime], P.iot (s1 + n) ⟨keywords, some timeframe, geo⟩)) =
      (fun n => ([FEvent.buildPayload ⟨keywords, some timeframe, geo⟩,
          FEvent.interestOverTime], P.iot (s2 + n) ⟨keywords, some timeframe, geo⟩)) := by
    funext n
    rw [hdet (s1 + n) (s2 + n)]
  rw [hfunc]
  exact retryGo_result_jitter_irrel _ j1 j2 5 3 0

/-- The empty FetchResult: a successfully returned table with no rows. -/
def emptyDf : DataFrame := { indexName := "date", index := [], cols := [] }

/-- A deterministic provider whose time-series response is the empty table. -/
def emptyProvider : Provider :=
  { iot := fun _ _ => Except.ok emptyDf,
    ibr := fun _ _ _ => Except.error "nope",
    rq := fun _ _ => Except.error "nope" }

/-- Witness for C7: same inputs, different state offsets and jitter oracles,
equal results. -/
theorem c7_facade_deterministic_witness :
    (get_interest_over_time emptyProvider 0 (fun _ => 1) mainKeywords mainTimeframe mainGeo).2 =
    (get_interest_over_time emptyProvider 3 (fun _ => 2) mainKeywords mainTimeframe mainGeo).2 :=
  c7_facade_deterministic emptyProvider (fun _ _ _ => rfl) 0 3 (fun _ => 1) (fun _ => 2)
    mainKeywords mainTimeframe mainGeo

theorem phase2Events_no_plotIOT (P : Provider) (jitter : Nat → ℚ) (fig : LineFig) :
    MainEvent.plotIOT fig ∉ phase2Events P jitter := by
  unfold phase2Events
  cases (phase2Fetch P jitter).2 with
  | ok df =>
    by_cases he : df.empty = true <;> simp [he]
  | err e => simp
  | none => simp

/-- C6: when the provider successfully returns an empty table on the first
call, the façade returns it with a single invocation and no retry sleeps, and
the orchestration prints the "No data retrieved" message instead of invoking
any time-series rendering. -/
theorem c6_empty_result (P : Provider) (jitter : Nat → ℚ) (df : DataFrame)
    (h0 : P.iot 0 ⟨mainKeywords, some mainTimeframe, mainGeo⟩ = Except.ok df)
    (hempty : df.empty = true) :
    (phase1Fetch P jitter).2 = RetryResult.ok df ∧
    invCount (phase1Fetch P jitter).1 = 1 ∧
    sleepDurations (phase1Fetch P jitter).1 = [] ∧
    phase1Events P jitter = [MainEvent.print "No data retrieved for interest over time."] ∧
    ∀ fig, MainEvent.plotIOT fig ∉ seoMain P jitter := by
  have hfetch : phase1Fetch P jitter =
      (Event.invoke 0 ::
        ([FEvent.buildPayload ⟨mainKeywords, some mainTimeframe, mainGeo⟩,
          FEvent.interestOverTime].map (Event.op 0)),
       RetryResult.ok df) := by
    unfold phase1Fetch get_interest_over_time async_retry
    exact retryGo_ok _ jitter 5 2 0 df h0
  have hev : phase1Events P jitter =
      [MainEvent.print "No data retrieved for interest over time."] := by
    unfold phase1Events
    rw [hfetch]
    simp [hempty]
  refine ⟨by rw [hfetch], by rw [hfetch]; rfl, by rw [hfetch]; rfl, hev, ?_⟩
  intro fig
  unfold seoMain
  rw [hev]
  simp only [List.mem_append, List.mem_singleton]
  rintro (h | h)
  · exact MainEvent.noConfusion h
  · exact phase2Events_no_plotIOT P jitter fig h

/-- Witness for C6: the empty-table provider yields the informational print. -/
theorem c6_empty_result_witness :
    emptyDf.empty = true ∧
    (phase1Fetch emptyProvider (fun _ => 1)).2 = RetryResult.ok emptyDf ∧
    phase1Events emptyProvider (fun _ => 1) =
      [MainEvent.print "No data retrieved for interest over time."] := by
  have h := c6_empty_result emptyProvider (fun _ => 1) emptyDf rfl rfl
  exact ⟨rfl, h.1, h.2.2.2.1⟩

/-- C8: when the regional façade is called with `resolution='COUNTRY'` and the
provider returns a non-empty 2-row table on the first call, the façade
returns that table and the choropleth constructor receives location mode
"country names" with the specified keyword as the color field. -/
theorem c8_choropleth_fields (P : Provider) (jitter : Nat → ℚ)
    (keyword geo title : String) (df : DataFrame)
    (h0 : P.ibr 0 ⟨[keyword], none, geo⟩ "COUNTRY" = Except.ok df)
    (hrows : df.index.length = 2) (hcols : df.cols ≠ []) :
    (get_interest_by_region P 0 jitter keyword "COUNTRY" geo).2 = RetryResult.ok df ∧
    df.empty = false ∧
    (plot_interest_by_region df keyword title).2.locationmode = "country names" ∧
    (plot_interest_by_region df keyword title).2.color = keyword := by
  refine ⟨?_, ?_, rfl, rfl⟩
  · unfold get_interest_by_region async_retry
    have h := retryGo_ok
      (fun n => ([FEvent.buildPayload ⟨[keyword], none, geo⟩,
        FEvent.interestByRegion "COUNTRY"], P.ibr (0 + n) ⟨[keyword], none, geo⟩ "COUNTRY"))
      jitter 5 2 0 df h0
    rw [h]
  · rw [DataFrame.empty, hrows]
    simp [hcols]

/-- A 2-row regional FetchResult. -/
def regionDf : DataFrame :=
  { indexName := "geoName",
    index := [Cell.str "United States", Cell.str "Canada"],
    cols := [("Holiday Sales", [Cell.num 100, Cell.num 80])] }

/-- A provider whose regional response is always the 2-row table. -/
def regionProvider : Provider :=
  { iot := fun _ _ => Except.error "nope",
    ibr := fun _ _ _ => Except.ok regionDf,
    rq := fun _ _ => Except.error "nope" }

/-- Witness for C8 on the 2-row table. -/
theorem c8_choropleth_fields_witness :
    regionDf.index.length = 2 ∧
    (get_interest_by_region regionProvider 0 (fun _ => 1) "Holiday Sales" "COUNTRY" "US").2 =
      RetryResult.ok regionDf ∧
    (plot_interest_by_region regionDf "Holiday Sales" "Regional Interest in the US").2.locationmode =
      "country names" ∧
    (plot_interest_by_region regionDf "Holiday Sales" "Regional Interest in the US").2.color =
      "Holiday Sales" := by
  have h := c8_choropleth_fields regionProvider (fun _ => 1) "Holiday Sales" "US"
    "Regional Interest in the US" regionDf rfl rfl (by decide)
  exact ⟨rfl, h.1, h.2.2.1, h.2.2.2⟩

theorem innerEvents_nil (i : Nat) : innerEvents ([] : List (Event ev ε)) i = [] := rfl

theorem innerEvents_append (l1 l2 : List (Event ev ε)) (i : Nat) :
    innerEvents (l1 ++ l2) i = innerEvents l1 i ++ innerEvents l2 i :=
  List.filterMap_append _ _ _

theorem innerEvents_cons_invoke (a i : Nat) (tr : List (Event ev ε)) :
    innerEvents (Event.invoke a :: tr) i = innerEvents tr i := by
  simp [innerEvents, List.filterMap_cons]

theorem innerEvents_cons_printRetrying (s : ℚ) (a i : Nat) (tr : List (Event ev ε)) :
    innerEvents (Event.printRetrying s a :: tr) i = innerEvents tr i := by
  simp [innerEvents, List.filterMap_cons]

theorem innerEvents_cons_sleep (d : ℚ) (i : Nat) (tr : List (Event ev ε)) :
    innerEvents (Event.sleep d :: tr) i = innerEvents tr i := by
  simp [innerEvents, List.filterMap_cons]

theorem innerEvents_cons_printMaxRetries (e : ε) (i : Nat) (tr : List (Event ev ε)) :
    innerEvents ((Event.printMaxRetries e : Event ev ε) :: tr) i = innerEvents tr i := by
  simp [innerEvents, List.filterMap_cons]

theorem innerEvents_op_map_self (a : Nat) (l : List ev) :
    innerEvents (l.map (Event.op (ε := ε) a)) a = l := by
  simp [innerEvents, List.filterMap_map, Function.comp_def]

theorem innerEvents_op_map_ne (a i : Nat) (h : a ≠ i) (l : List ev) :
    innerEvents (l.map (Event.op (ε := ε) a)) i = [] := by
  simp [innerEvents, List.filterMap_map, Function.comp, h]

theorem retryGo_innerEvents_lt (func : Nat → List ev × Except ε α) (jitter : Nat → ℚ)
    (delay : ℚ) :
    ∀ rem attempt i, i < attempt →
      innerEvents (retryGo func jitter delay rem attempt).1 i = [] := by
  intro rem
  induction rem with
  | zero => intro attempt i _; rfl
  | succ r ih =>
    intro attempt i hi
    have hne : attempt ≠ i := by omega
    cases h : (func attempt).2 with
    | ok a =>
      rw [retryGo_ok func jitter delay r attempt a h]
      dsimp only
      rw [innerEvents_cons_invoke, innerEvents_op_map_ne attempt i hne]
    | error e =>
      by_cases hr : r = 0
      · subst hr
        rw [retryGo_err_last func jitter delay attempt e h]
        dsimp only
        rw [innerEvents_append, innerEvents_cons_invoke,
          innerEvents_op_map_ne attempt i hne, innerEvents_cons_printMaxRetries,
          innerEvents_nil, List.nil_append]
      · rw [retryGo_err_retry func jitter delay r attempt e hr h]
        dsimp only
        rw [innerEvents_append, innerEvents_cons_invoke,
          innerEvents_op_map_ne attempt i hne, innerEvents_cons_printRetrying,
          innerEvents_cons_sleep, ih (attempt + 1) i (by omega), List.nil_append]

theorem retryGo_innerEvents (func : Nat → List ev × Except ε α) (jitter : Nat → ℚ)
    (delay : ℚ) :
    ∀ rem attempt i, Event.invoke i ∈ (retryGo func jitter delay rem attempt).1 →
      innerEvents (retryGo func jitter delay rem attempt).1 i = (func i).1 := by
  intro rem
  induction rem with
  | zero =>
    intro attempt i hmem
    exact absurd hmem (List.not_mem_nil _)
  | succ r ih =>
    intro attempt i hmem
    by_cases hia : i = attempt
    · subst hia
      cases h : (func i).2 with
      | ok a =>
        rw [retryGo_ok func jitter delay r i a h]
        dsimp only
        rw [innerEvents_cons_invoke, innerEvents_op_map_self]
      | error e =>
        by_cases hr : r = 0
        · subst hr
          rw [retryGo_err_last func jitter delay i e h]
          dsimp only
          rw [innerEvents_append, innerEvents_cons_invoke, innerEvents_op_map_self,
            innerEvents_cons_printMaxRetries, innerEvents_nil, List.append_nil]
        · rw [retryGo_err_retry func jitter delay r i e hr h]
          dsimp only
          rw [innerEvents_append, innerEvents_cons_invoke, innerEvents_op_map_self,
            innerEvents_cons_printRetrying, innerEvents_cons_sleep,
            retryGo_innerEvents_lt func jitter delay r (i + 1) i (by omega),
            List.append_nil]
    · have hne : attempt ≠ i := fun h => hia h.symm
      cases h : (func attempt).2 with
      | ok a =>
        rw [retryGo_ok func jitter delay r attempt a h] at hmem
        dsimp only at hmem
        rw [List.mem_cons] at hmem
        rcases hmem with hmem | hmem
        · exact absurd (Event.invoke.inj hmem) hia
        · obtain ⟨x, _, hx⟩ := List.mem_map.mp hmem
          exact absurd hx (fun hx => Event.noConfusion hx)
      | error e =>
        by_cases hr : r = 0
        · subst hr
          rw [retryGo_err_last func jitter delay attempt e h] at hmem ⊢
          dsimp only at hmem ⊢
          rw [innerEvents_append, innerEvents_cons_invoke,
            innerEvents_op_map_ne attempt i hne, innerEvents_cons_printMaxRetries,
            innerEvents_nil, List.nil_append]
          simp only [List.mem_append, List.mem_cons] at hmem
          rcases hmem with (hmem | hmem) | hmem
          · exact absurd (Event.invoke.inj hmem) hia
          · obtain ⟨x, _, hx⟩ := List.mem_map.mp hmem
            exact absurd hx (fun hx => Event.noConfusion hx)
          · rcases hmem with hmem | hmem
            · exact absurd hmem (fun hmem => Event.noConfusion hmem)
            · exact absurd hmem (List.not_mem_nil _)
        · rw [retryGo_err_retry func jitter delay r attempt e hr h] at hmem ⊢
          dsimp only at hmem ⊢
          rw [innerEvents_append, innerEvents_cons_invoke,
            innerEvents_op_map_ne attempt i hne, innerEvents_cons_printRetrying,
            innerEvents_cons_sleep, List.nil_append]
          apply ih (attempt + 1) i
          simp only [List.mem_append, List.mem_cons] at hmem
          rcases hmem with (hmem | hmem) | hmem
          · exact absurd (Event.invoke.inj hmem) hia
          · obtain ⟨x, _, hx⟩ := List.mem_map.mp hmem
            exact absurd hx (fun hx => Event.noConfusion hx)
          · rcases hmem with hmem | hmem
            · exact absurd hmem (fun hmem => Event.noConfusion hmem)
            · rcases hmem with hmem | hmem
              · exact absurd hmem (fun hmem => Event.noConfusion hmem)
              · exact hmem

/-- C10: on every attempt that occurs (not only the first), each façade
re-executes its entire closure: the inner events of every recorded invocation
are exactly the payload build followed by the retrieval. -/
theorem c10_payload_rebuilt (P : Provider) (start : Nat) (jitter : Nat → ℚ)
    (keywords : List String) (timeframe geo : String)
    (keyword resolution geo2 : String) (keyword3 geo3 : String) (i : Nat) :
    (Event.invoke i ∈ (get_interest_over_time P start jitter keywords timeframe geo).1 →
      innerEvents (get_interest_over_time P start jitter keywords timeframe geo).1 i =
        [FEvent.buildPayload ⟨keywords, some timeframe, geo⟩, FEvent.interestOverTime]) ∧
    (Event.invoke i ∈ (get_interest_by_region P start jitter keyword resolution geo2).1 →
      innerEvents (get_interest_by_region P start jitter keyword resolution geo2).1 i =
        [FEvent.buildPayload ⟨[keyword], none, geo2⟩, FEvent.interestByRegion resolution]) ∧
    (Event.invoke i ∈ (get_related_queries P start jitter keyword3 geo3).1 →
      innerEvents (get_related_queries P start jitter keyword3 geo3).1 i =
        [FEvent.buildPayload ⟨[keyword3], none, geo3⟩, FEvent.relatedQueries]) := by
  refine ⟨?_, ?_, ?_⟩ <;>
    exact fun hmem => retryGo_innerEvents _ jitter 5 3 0 i hmem

/-- Witness for C10: with an always-failing provider all three attempts occur;
attempt 1 (a retry) still performs the payload build before the retrieval. -/
theorem c10_payload_rebuilt_witness :
    Event.invoke 1 ∈
      (get_interest_over_time regionProvider 0 (fun _ => 1)
        mainKeywords mainTimeframe mainGeo).1 ∧
    innerEvents
      (get_interest_over_time regionProvider 0 (fun _ => 1)
        mainKeywords mainTimeframe mainGeo).1 1 =
      [FEvent.buildPayload ⟨mainKeywords, some mainTimeframe, mainGeo⟩,
       FEvent.interestOverTime] := by
  have hmem : Event.invoke 1 ∈
      (get_interest_over_time regionProvider 0 (fun _ => 1)
        mainKeywords mainTimeframe mainGeo).1 := by decide
  exact ⟨hmem,
    (c10_payload_rebuilt regionProvider 0 (fun _ => 1) mainKeywords mainTimeframe
      mainGeo "k" "COUNTRY" "US" "k" "US" 1).1 hmem⟩

/-- A sample non-empty time-series FetchResult. -/
def sampleDf : DataFrame :=
  { indexName := "date",
    index := [Cell.str "2024-11-01", Cell.str "2024-11-08"],
    cols := [("Black Friday Deals", [Cell.num 40, Cell.num 80]),
             ("isPartial", [Cell.bool false, Cell.bool false])] }

/-- C4 counterexample: the visualization operations do not leave the DataFrame
passed to them unchanged — `reset_index(inplace=True)` mutates it. -/
theorem c4_counterexample :
    (plot_interest_over_time sampleDf "Interest Over Time").1 ≠ sampleDf ∧
    (plot_interest_by_region sampleDf "Black Friday Deals" "Regional Interest").1 ≠
      sampleDf := by
  constructor <;> decide

/-- C4 (amended): the visualization operations mutate the DataFrame passed to
them in place: each applies `reset_index` to its argument, so after the call
the caller's frame differs from what it passed in — its former index is
prepended as a column and replaced by a fresh range index. -/
theorem c4_plots_mutate (df : DataFrame) (keyword t1 t2 : String) :
    (plot_interest_over_time df t1).1 = df.reset_index ∧
    (plot_interest_by_region df keyword t2).1 = df.reset_index ∧
    df.reset_index.cols = (df.indexName, df.index) :: df.cols ∧
    df.reset_index.index = (List.range df.index.length).map Cell.num ∧
    (plot_interest_over_time df t1).1 ≠ df ∧
    (plot_interest_by_region df keyword t2).1 ≠ df := by
  have hne : df.reset_index ≠ df := by
    intro h
    have hlen := congrArg (fun d => d.cols.length) h
    simp only [DataFrame.reset_index, List.length_cons] at hlen
    omega
  exact ⟨rfl, rfl, rfl, rfl, hne, hne⟩

theorem phase1Events_length (P : Provider) (jitter : Nat → ℚ) :
    (phase1Events P jitter).length = 1 := by
  unfold phase1Events
  cases (phase1Fetch P jitter).2 with
  | ok df => by_cases he : df.empty = true <;> simp [he]
  | err e => simp
  | none => simp

theorem phase2Events_length (P : Provider) (jitter : Nat → ℚ) :
    (phase2Events P jitter).length = 1 := by
  unfold phase2Events
  cases (phase2Fetch P jitter).2 with
  | ok df => by_cases he : df.empty = true <;> simp [he]
  | err e => simp
  | none => simp

/-- C5: each phase of `main` confines its errors to its own handler, and the
second phase runs whatever the first does: the run is always the first
phase's single event followed by the second phase's single event, and when a
phase's fetch raises, that phase's event is the logged failure message while
the other phase's events are untouched. -/
theorem c5_phase_isolation (P : Provider) (jitter : Nat → ℚ) :
    seoMain P jitter = phase1Events P jitter ++ phase2Events P jitter ∧
    (∃ e1 e2, seoMain P jitter = [e1, e2]) ∧
    (∀ err, (phase1Fetch P jitter).2 = RetryResult.err err →
      seoMain P jitter =
        MainEvent.print ("Failed to fetch interest over time: " ++ err) ::
          phase2Events P jitter) ∧
    (∀ err, (phase2Fetch P jitter).2 = RetryResult.err err →
      seoMain P jitter =
        phase1Events P jitter ++
          [MainEvent.print ("Failed to fetch regional interest: " ++ err)]) := by
  refine ⟨rfl, ?_, ?_, ?_⟩
  · obtain ⟨e1, h1⟩ := List.length_eq_one.mp (phase1Events_length P jitter)
    obtain ⟨e2, h2⟩ := List.length_eq_one.mp (phase2Events_length P jitter)
    exact ⟨e1, e2, by rw [seoMain, h1, h2]; rfl⟩
  · intro err herr
    rw [seoMain]
    have h1 : phase1Events P jitter =
        [MainEvent.print ("Failed to fetch interest over time: " ++ err)] := by
      unfold phase1Events
      rw [herr]
    rw [h1]
    rfl
  · intro err herr
    rw [seoMain]
    have h2 : phase2Events P jitter =
        [MainEvent.print ("Failed to fetch regional interest: " ++ err)] := by
      unfold phase2Events
      rw [herr]
    rw [h2]

/-- A provider that raises on every call. -/
def failProvider : Provider :=
  { iot := fun _ _ => Except.error "rate limited",
    ibr := fun _ _ _ => Except.error "rate limited",
    rq := fun _ _ => Except.error "rate limited" }

/-- Witness for C5: with an always-failing provider the first phase's error is
logged and the second phase still runs (and logs its own error). -/
theorem c5_phase_isolation_witness :
    (phase1Fetch failProvider (fun _ => 1)).2 = RetryResult.err "rate limited" ∧
    seoMain failProvider (fun _ => 1) =
      MainEvent.print ("Failed to fetch interest over time: " ++ "rate limited") ::
        phase2Events failProvider (fun _ => 1) := by
  have herr : (phase1Fetch failProvider (fun _ => 1)).2 =
      RetryResult.err "rate limited" := by decide
  exact ⟨herr, (c5_phase_isolation failProvider (fun _ => 1)).2.2.1 "rate limited" herr⟩
